/-
Verification of the Allscreenshots TypeScript SDK's resilient request
pipeline: the error taxonomy and classifier (src/errors), the retry
machinery (backoff calculator and retry controller), and the request
executor / client construction logic (src/client).

Machine integers of the source are modelled as Nat, durations and delays
as Rat (the backoff arithmetic is exact rational arithmetic once the
random jitter draw is made an explicit parameter), JavaScript's
truthiness on optional strings as an explicit `jsOr`, and thrown
exceptions as `Except` values.
-/
import Mathlib

namespace Allscreenshots

/-! ## Error taxonomy (src/errors/index.ts)

Each TypeScript error class becomes a value of one `SdkError` structure
tagged with an `ErrorKind`; the class constructors become functions
filling in the fields exactly as the classes do. -/

/-- The nine error kinds of the taxonomy: one per error class of
src/errors plus `unknown` for the base `AllscreenshotsError` class. -/
inductive ErrorKind where
  | validation
  | authentication
  | notFound
  | rateLimited
  | quotaExceeded
  | server
  | network
  | timeout
  | unknown
deriving DecidableEq

/-- A classified SDK error: kind, human message, optional HTTP status,
optional machine error code, and the kind-specific extras
(`validationErrors` for validation, `retryAfter` for rate limiting). -/
structure SdkError where
  kind : ErrorKind
  message : String
  statusCode : Option Nat
  errorCode : Option String
  validationErrors : Option (List (String × String))
  retryAfter : Option Nat
deriving DecidableEq

/-- Base class `AllscreenshotsError(message, statusCode?, errorCode?)`. -/
def AllscreenshotsError (message : String) (statusCode : Option Nat)
    (errorCode : Option String) : SdkError :=
  ⟨.unknown, message, statusCode, errorCode, none, none⟩

/-- `AuthenticationError(message)`: status 401, code AUTHENTICATION_ERROR. -/
def AuthenticationError (message : String) : SdkError :=
  ⟨.authentication, message, some 401, some "AUTHENTICATION_ERROR", none, none⟩

/-- `ValidationError(message, validationErrors?)`: status 400. -/
def ValidationError (message : String)
    (validationErrors : Option (List (String × String))) : SdkError :=
  ⟨.validation, message, some 400, some "VALIDATION_ERROR", validationErrors, none⟩

/-- `NotFoundError(message)`: status 404. -/
def NotFoundError (message : String) : SdkError :=
  ⟨.notFound, message, some 404, some "NOT_FOUND", none, none⟩

/-- `RateLimitError(message, retryAfter?)`: status 429. -/
def RateLimitError (message : String) (retryAfter : Option Nat) : SdkError :=
  ⟨.rateLimited, message, some 429, some "RATE_LIMIT_EXCEEDED", none, retryAfter⟩

/-- `QuotaExceededError(message)`: status 402. -/
def QuotaExceededError (message : String) : SdkError :=
  ⟨.quotaExceeded, message, some 402, some "QUOTA_EXCEEDED", none, none⟩

/-- `ServerError(message, statusCode)`: keeps the given 5xx status. -/
def ServerError (message : String) (statusCode : Nat) : SdkError :=
  ⟨.server, message, some statusCode, some "SERVER_ERROR", none, none⟩

/-- `NetworkError(message)`: no status code. -/
def NetworkError (message : String) : SdkError :=
  ⟨.network, message, none, some "NETWORK_ERROR", none, none⟩

/-- `TimeoutError(message)`: no status code. -/
def TimeoutError (message : String) : SdkError :=
  ⟨.timeout, message, none, some "TIMEOUT_ERROR", none, none⟩

/-- The `ApiErrorResponse` interface: the optional fields an error body
may carry. -/
structure ApiErrorResponse where
  error : Option String
  message : Option String
  errorCode : Option String
  statusCode : Option Nat
  validationErrors : Option (List (String × String))
deriving DecidableEq

/-- The body argument of `parseApiError`: a structured object, a plain
string, or null. -/
inductive Body where
  | obj : ApiErrorResponse → Body
  | str : String → Body
  | null : Body
deriving DecidableEq

/-- JavaScript `a || b` on an optional string: `a` when present and
non-empty (truthy), else `b`. -/
def jsOr (a : Option String) (b : String) : String :=
  match a with
  | some s => if s = "" then b else s
  | none => b

/-- The message computed at the top of `parseApiError`:
`typeof body === 'string' ? body : body?.message || body?.error ||
`HTTP ${statusCode} error``. -/
def extractMessage (statusCode : Nat) (body : Body) : String :=
  match body with
  | .str s => s
  | .obj o => jsOr o.message (jsOr o.error ("HTTP " ++ toString statusCode ++ " error"))
  | .null => "HTTP " ++ toString statusCode ++ " error"

/-- `typeof body === 'object' ? body?.errorCode : undefined`; note that
`typeof null === 'object'` in JavaScript and optional chaining on null
gives undefined. -/
def bodyErrorCode : Body → Option String
  | .obj o => o.errorCode
  | .str _ => none
  | .null => none

/-- `typeof body === 'object' ? body?.validationErrors : undefined`. -/
def bodyValidationErrors : Body → Option (List (String × String))
  | .obj o => o.validationErrors
  | .str _ => none
  | .null => none

/-- `parseApiError(statusCode, body, retryAfter?)` from src/errors: the
switch on the status code, producing one classified error. -/
def parseApiError (statusCode : Nat) (body : Body) (retryAfter : Option Nat) :
    SdkError :=
  let message := extractMessage statusCode body
  let errorCode := bodyErrorCode body
  if statusCode = 400 then
    ValidationError message (bodyValidationErrors body)
  else if statusCode = 401 ∨ statusCode = 403 then
    AuthenticationError message
  else if statusCode = 402 then
    QuotaExceededError message
  else if statusCode = 404 then
    NotFoundError message
  else if statusCode = 429 then
    RateLimitError message retryAfter
  else if statusCode = 500 ∨ statusCode = 502 ∨ statusCode = 503 ∨ statusCode = 504 then
    ServerError message statusCode
  else
    AllscreenshotsError message (some statusCode) errorCode

/-- The message-extraction rule exactly as claim C1 words it: the body
itself when it is a string, else the body's message field (whenever
present), else its error field (whenever present), else the fallback
composed from the status code. Stated for comparison against
`extractMessage`, the rule the source actually implements. -/
def claimMessage (statusCode : Nat) (body : Body) : String :=
  match body with
  | .str s => s
  | .obj o =>
    match o.message with
    | some m => m
    | none =>
      match o.error with
      | some e => e
      | none => "HTTP " ++ toString statusCode ++ " error"
  | .null => "HTTP " ++ toString statusCode ++ " error"

/-- The message rule of claim C1 as amended: the body itself when it is
a string, else the body's message field when present and non-empty, else
its error field when present and non-empty, else the fallback composed
from the status code (mirroring JavaScript `||` truthiness on strings). -/
def claimMessageAmended (statusCode : Nat) (body : Body) : String :=
  match body with
  | .str s => s
  | .obj o =>
    match o.message with
    | some m =>
      if m = "" then
        match o.error with
        | some e => if e = "" then "HTTP " ++ toString statusCode ++ " error" else e
        | none => "HTTP " ++ toString statusCode ++ " error"
      else m
    | none =>
      match o.error with
      | some e => if e = "" then "HTTP " ++ toString statusCode ++ " error" else e
      | none => "HTTP " ++ toString statusCode ++ " error"
  | .null => "HTTP " ++ toString statusCode ++ " error"

/-! ## Retry machinery

The implementation file src/utils/retry.ts is not among the sources —
only its unit tests and its caller (the client) are — so the backoff
calculator and the retry controller below are modelled from the spec
(§4.2 and §4.4), with the jitter random draw made an explicit
parameter. -/

/-- The retry configuration: maximum retry count, initial and maximum
delay in milliseconds, backoff multiplier, and jitter factor. -/
structure RetryConfig where
  maxRetries : Nat
  initialDelayMs : ℚ
  maxDelayMs : ℚ
  multiplier : ℚ
  jitterFactor : ℚ
deriving DecidableEq

/-- Modelled from the spec: `calculateDelay` of src/utils/retry.ts (the
Backoff Calculator, §4.2; the implementation file is missing from the
sources). `base = initial_delay × multiplier^attempt_index` capped at
`max_delay`; the final delay adds `uniform_random(-jitter × base,
+jitter × base)` and is clamped non-negative. The random draw is the
explicit parameter `r ∈ [-1, 1]`, scaled by `jitterFactor × base`. -/
def calculateDelay (attempt : Nat) (config : RetryConfig) (r : ℚ) : ℚ :=
  let base := min (config.initialDelayMs * config.multiplier ^ attempt) config.maxDelayMs
  max 0 (base + r * (config.jitterFactor * base))

/-- Modelled from the spec: `isRetryableError` of src/utils/retry.ts
(the retryability predicate of §4.1; the implementation file is missing
from the sources, its unit tests agree with this table). -/
def isRetryableError (e : SdkError) : Bool :=
  match e.kind with
  | .rateLimited | .server | .network | .timeout => true
  | _ => false

/-- Modelled from the spec: the delay scheduled before the next attempt
(§4.2 override, §4.4): a `rate_limited` failure carrying a retry-after
hint of h seconds waits `h × 1000` milliseconds, bypassing the backoff
computation; every other failure waits `calculateDelay`. -/
def retryDelay (e : SdkError) (attempt : Nat) (config : RetryConfig) (r : ℚ) : ℚ :=
  match e.kind, e.retryAfter with
  | .rateLimited, some h => (h : ℚ) * 1000
  | _, _ => calculateDelay attempt config r

/-- The observable trace of one run of the retry controller: the waits
performed between attempts, the number of invocations of the operation,
and the final result. -/
structure RetryTrace (α : Type) where
  waits : List ℚ
  invocations : Nat
  result : Except SdkError α

/-- Modelled from the spec: the Retry Controller state machine of §4.4
(`withRetry` of src/utils/retry.ts; the implementation file is missing
from the sources). `op n` is the outcome of invocation number `n`,
`rand n` the jitter draw used after it, `attempt` the current attempt
index and `remaining` the retries still allowed
(`maxRetries − attempt`). On failure: terminal unless the error is
retryable and retries remain; otherwise wait and re-attempt. -/
def withRetryAux {α : Type} (op : Nat → Except SdkError α) (config : RetryConfig)
    (rand : Nat → ℚ) : Nat → Nat → RetryTrace α
  | attempt, remaining =>
    match op attempt with
    | .ok v => ⟨[], 1, .ok v⟩
    | .error e =>
      if isRetryableError e then
        match remaining with
        | 0 => ⟨[], 1, .error e⟩
        | r + 1 =>
          let t := withRetryAux op config rand (attempt + 1) r
          ⟨retryDelay e attempt config (rand attempt) :: t.waits, t.invocations + 1, t.result⟩
      else ⟨[], 1, .error e⟩

/-- Modelled from the spec: `withRetry(op, config)` starts in the
`attempting` state at attempt index 0 with all `maxRetries` retries
still allowed. -/
def withRetry {α : Type} (op : Nat → Except SdkError α) (config : RetryConfig)
    (rand : Nat → ℚ) : RetryTrace α :=
  withRetryAux op config rand 0 config.maxRetries

/-! ## Client construction and request assembly (src/client.ts) -/

/-- `AllscreenshotsConfig`: the options object accepted by the builder
and the client constructor. -/
structure AllscreenshotsConfig where
  apiKey : Option String
  baseUrl : Option String
  timeout : Option Nat
  autoRetry : Option Bool
deriving DecidableEq

/-- `DEFAULT_CONFIG.baseUrl`. -/
def defaultBaseUrl : String := "https://api.allscreenshots.com"

/-- `DEFAULT_CONFIG.timeout`. -/
def defaultTimeout : Nat := 60000

/-- `DEFAULT_CONFIG.autoRetry`. -/
def defaultAutoRetry : Bool := true

/-- The message of the error thrown by the constructor when no API key
is found. -/
def missingApiKeyMessage : String :=
  "API key is required. Provide it via config or set ALLSCREENSHOTS_API_KEY environment variable."

/-- `baseUrl.replace(/\/+$/, '')` from `withBaseUrl`: remove every
trailing slash. -/
def stripTrailingSlashes (s : String) : String :=
  String.mk ((s.data.reverse.dropWhile (fun c => c = '/')).reverse)

/-- `AllscreenshotsClientBuilder.withBaseUrl`: stores the address with
trailing slashes stripped. -/
def builderWithBaseUrl (cfg : AllscreenshotsConfig) (url : String) : AllscreenshotsConfig :=
  { cfg with baseUrl := some (stripTrailingSlashes url) }

/-- Line 164 of the client: `config.baseUrl || DEFAULT_CONFIG.baseUrl`
(no stripping on this path). -/
def constructorBaseUrl (cfg : AllscreenshotsConfig) : String :=
  jsOr cfg.baseUrl defaultBaseUrl

/-- Line 156: `config.apiKey || process.env.ALLSCREENSHOTS_API_KEY || ''`;
`envKey` is the process-wide environment value. -/
def resolveApiKey (configKey envKey : Option String) : String :=
  jsOr configKey (jsOr envKey "")

/-- The constructed client's stored fields. -/
structure AllscreenshotsClient where
  apiKey : String
  baseUrl : String
  timeout : Nat
  autoRetry : Bool
deriving DecidableEq

/-- The `AllscreenshotsClient` constructor: resolves the API key from
the config else the environment, throws `AuthenticationError` when the
result is empty, else stores the configuration with defaults applied
(`||` for baseUrl, `??` for timeout and autoRetry). -/
def mkClient (cfg : AllscreenshotsConfig) (envApiKey : Option String) :
    Except SdkError AllscreenshotsClient :=
  let apiKey := resolveApiKey cfg.apiKey envApiKey
  if apiKey = "" then
    .error (AuthenticationError missingApiKeyMessage)
  else
    .ok { apiKey := apiKey
          baseUrl := constructorBaseUrl cfg
          timeout := cfg.timeout.getD defaultTimeout
          autoRetry := cfg.autoRetry.getD defaultAutoRetry }

/-- The headers object built by `AllscreenshotsClient.request`
(lines 207–211). -/
structure RequestHeaders where
  xApiKey : String
  contentType : Option String
  accept : String
deriving DecidableEq

/-- Lines 207–211 of the client: `X-API-Key` carries the credential,
`Content-Type` is always `application/json`, and `Accept` depends on
`returnBinary`. The request body does not influence the headers, which
is why the `body` parameter is unused. -/
def buildRequestHeaders (apiKey : String) (returnBinary : Bool)
    (_body : Option String) : RequestHeaders :=
  { xApiKey := apiKey
    contentType := some "application/json"
    accept := if returnBinary then "image/*,application/pdf" else "application/json" }

/-- A JavaScript `Error` reaching the catch handler of
`AllscreenshotsClient.request`: its `name` and `message`. -/
structure JsError where
  name : String
  message : String
deriving DecidableEq

/-- JavaScript `s.includes(pat)`. -/
def stringIncludes (s pat : String) : Bool :=
  decide (pat.data <:+: s.data)

/-- The catch handler of `AllscreenshotsClient.request` (lines 260–277)
restricted to non-SDK errors (an `AllscreenshotsError` is re-thrown
unchanged): an `AbortError` — the abort signal fired by the timeout —
becomes `TimeoutError`; an error whose message mentions `fetch` becomes
`NetworkError`; anything else becomes the generic `NetworkError`. -/
def classifyTransportError (timeoutMs : Nat) (e : JsError) : SdkError :=
  if e.name = "AbortError" then
    TimeoutError ("Request timed out after " ++ toString timeoutMs ++ "ms")
  else if stringIncludes e.message "fetch" then
    NetworkError ("Network error: " ++ e.message)
  else
    NetworkError "Unknown network error occurred"

/-! ## Theorems -/

theorem extractMessage_eq_claimMessageAmended (s : Nat) (b : Body) :
    extractMessage s b = claimMessageAmended s b := by
  cases b with
  | str t => rfl
  | null => rfl
  | obj o =>
    rcases o with ⟨e, m, ec, sc, ve⟩
    cases m <;> cases e <;>
      simp only [extractMessage, claimMessageAmended, jsOr]

theorem parseApiError_message_eq (s : Nat) (b : Body) (r : Option Nat) :
    (parseApiError s b r).message = extractMessage s b := by
  unfold parseApiError
  split_ifs <;> rfl

/-- Claim C1, counterexample. The claim reads "the message is b itself
when b is a string, else b's message field, else b's error field, else
the fallback": at status 400 with the body `\x7berror: "E", message: ""\x7d`
the message field is present, so the claim's rule (`claimMessage`) gives
`""`, but `parseApiError` skips the empty field and returns `"E"`. -/
theorem parseApiError_claimMessage_counterexample :
    (parseApiError 400 (Body.obj ⟨some "E", some "", none, none, none⟩) none).message = "E"
    ∧ claimMessage 400 (Body.obj ⟨some "E", some "", none, none, none⟩) = ""
    ∧ (parseApiError 400 (Body.obj ⟨some "E", some "", none, none, none⟩) none).message
      ≠ claimMessage 400 (Body.obj ⟨some "E", some "", none, none, none⟩) := by
  refine ⟨rfl, rfl, ?_⟩
  decide

/-- Claim C1 (amended): for every status code s, body b and retry-after
hint r, `parseApiError s b r` is determined by s in priority order — 400
yields validation carrying b's validationErrors map when present; 401 and
403 yield authentication; 402 yields quota_exceeded; 404 yields
not_found; 429 yields rate_limited carrying r; 500, 502, 503 and 504
yield server preserving s; any other status yields the unknown kind
preserving s and any machine errorCode found in b; and in every case the
message is b itself when b is a string, else b's message field when
non-empty, else b's error field when non-empty, else the fallback
composed from the status code. -/
theorem parseApiError_classifies (s : Nat) (b : Body) (r : Option Nat) :
    (parseApiError s b r).message = claimMessageAmended s b
    ∧ (s = 400 → (parseApiError s b r).kind = .validation
        ∧ (parseApiError s b r).validationErrors = bodyValidationErrors b)
    ∧ ((s = 401 ∨ s = 403) → (parseApiError s b r).kind = .authentication)
    ∧ (s = 402 → (parseApiError s b r).kind = .quotaExceeded)
    ∧ (s = 404 → (parseApiError s b r).kind = .notFound)
    ∧ (s = 429 → (parseApiError s b r).kind = .rateLimited
        ∧ (parseApiError s b r).retryAfter = r)
    ∧ ((s = 500 ∨ s = 502 ∨ s = 503 ∨ s = 504) → (parseApiError s b r).kind = .server
        ∧ (parseApiError s b r).statusCode = some s)
    ∧ (s ≠ 400 → s ≠ 401 → s ≠ 402 → s ≠ 403 → s ≠ 404 → s ≠ 429 →
        s ≠ 500 → s ≠ 502 → s ≠ 503 → s ≠ 504 →
        (parseApiError s b r).kind = .unknown
        ∧ (parseApiError s b r).statusCode = some s
        ∧ (parseApiError s b r).errorCode = bodyErrorCode b) := by
  refine ⟨(parseApiError_message_eq s b r).trans (extractMessage_eq_claimMessageAmended s b),
    ?_, ?_, ?_, ?_, ?_, ?_, ?_⟩ <;>
    (intros
     unfold parseApiError
     split_ifs <;> first | (exact ⟨rfl, rfl⟩) | rfl | exact ⟨rfl, rfl, rfl⟩ | omega)

/-- Witness for claim C1's amended theorem at the spec's round-trip
inputs (status 429 with a retry-after of 60 and a string body). -/
theorem parseApiError_classifies_witness :
    (parseApiError 429 (Body.str "slow down") (some 60)).kind = ErrorKind.rateLimited
    ∧ (parseApiError 429 (Body.str "slow down") (some 60)).retryAfter = some 60 :=
  (parseApiError_classifies 429 (Body.str "slow down") (some 60)).2.2.2.2.2.1 rfl

/-- Claim C2: for every attempt index i and every retry configuration
with jitter factor 0 (and the spec's sign conventions on the numeric
parameters), `calculateDelay` equals
`min(initial_delay × multiplier^i, max_delay)` exactly, independent of
the random draw. -/
theorem calculateDelay_no_jitter (i : Nat) (config : RetryConfig) (r : ℚ)
    (hj : config.jitterFactor = 0) (h0 : 0 ≤ config.initialDelayMs)
    (hm : 0 ≤ config.multiplier) (hmax : config.initialDelayMs ≤ config.maxDelayMs) :
    calculateDelay i config r
      = min (config.initialDelayMs * config.multiplier ^ i) config.maxDelayMs := by
  have hb : 0 ≤ min (config.initialDelayMs * config.multiplier ^ i) config.maxDelayMs :=
    le_min (mul_nonneg h0 (pow_nonneg hm i)) (le_trans h0 hmax)
  unfold calculateDelay
  rw [hj]
  simp [max_eq_right hb]

/-- Witness for claim C2 at attempt index 2 with initial delay 1000,
multiplier 2, max delay 30000, jitter 0 and a nonzero random draw. -/
theorem calculateDelay_no_jitter_witness :
    calculateDelay 2 ⟨3, 1000, 30000, 2, 0⟩ (1/2)
      = min ((1000 : ℚ) * 2 ^ 2) 30000 :=
  calculateDelay_no_jitter 2 ⟨3, 1000, 30000, 2, 0⟩ (1/2) rfl (by norm_num) (by norm_num)
    (by norm_num)

theorem retryDelay_rateLimited (e : SdkError) (h attempt : Nat) (config : RetryConfig)
    (r : ℚ) (hk : e.kind = .rateLimited) (hr : e.retryAfter = some h) :
    retryDelay e attempt config r = (h : ℚ) * 1000 := by
  unfold retryDelay
  rw [hk, hr]

theorem withRetryAux_first_wait {α : Type} (op : Nat → Except SdkError α)
    (config : RetryConfig) (rand : Nat → ℚ) (a m : Nat) (e : SdkError)
    (hop : op a = .error e) (hr : isRetryableError e = true) :
    (withRetryAux op config rand a (m + 1)).waits.head?
      = some (retryDelay e a config (rand a)) := by
  unfold withRetryAux
  rw [hop]
  simp [hr]

/-- Claim C3: a `rate_limited` failure carrying a retry-after hint of h
seconds makes the controller wait exactly h × 1000 milliseconds before
the next attempt, replacing the computed backoff delay and its jitter,
whatever the configured initial delay and multiplier: the scheduled
delay for such a failure is h × 1000 at every attempt index, and when
the first invocation fails that way (with at least one retry allowed)
the first recorded wait of the controller is exactly h × 1000. -/
theorem withRetry_retryAfter_override {α : Type} (op : Nat → Except SdkError α)
    (config : RetryConfig) (rand : Nat → ℚ) (e : SdkError) (h : Nat)
    (hop : op 0 = .error e) (hk : e.kind = .rateLimited) (hr : e.retryAfter = some h)
    (hM : 0 < config.maxRetries) :
    (∀ (attempt : Nat) (r : ℚ), retryDelay e attempt config r = (h : ℚ) * 1000)
    ∧ (withRetry op config rand).waits.head? = some ((h : ℚ) * 1000) := by
  constructor
  · intro attempt r
    exact retryDelay_rateLimited e h attempt config r hk hr
  · have hret : isRetryableError e = true := by
      unfold isRetryableError
      rw [hk]
    obtain ⟨m, hm⟩ := Nat.exists_eq_add_of_lt hM
    have hm' : config.maxRetries = m + 1 := by omega
    unfold withRetry
    rw [hm', withRetryAux_first_wait op config rand 0 m e hop hret,
      retryDelay_rateLimited e h 0 config (rand 0) hk hr]

/-- Witness for claim C3: an operation that always fails rate-limited
with a 5-second hint, max retries 1, initial delay 1000 and
multiplier 2 — the first wait is exactly 5000 ms. -/
theorem withRetry_retryAfter_override_witness :
    (withRetry (fun _ => (Except.error (RateLimitError "Rate limited" (some 5)) :
        Except SdkError Nat)) ⟨1, 1000, 30000, 2, 0⟩ (fun _ => 0)).waits.head?
      = some ((5 : ℚ) * 1000) :=
  (withRetry_retryAfter_override
    (fun _ => (Except.error (RateLimitError "Rate limited" (some 5)) : Except SdkError Nat))
    ⟨1, 1000, 30000, 2, 0⟩ (fun _ => 0) (RateLimitError "Rate limited" (some 5)) 5
    rfl rfl rfl (by decide)).2

theorem withRetryAux_allFail {α : Type} (op : Nat → Except SdkError α)
    (config : RetryConfig) (rand : Nat → ℚ) (es : Nat → SdkError)
    (hop : ∀ n, op n = .error (es n)) (hret : ∀ n, isRetryableError (es n) = true) :
    ∀ remaining attempt : Nat,
      (withRetryAux op config rand attempt remaining).invocations = remaining + 1
      ∧ (withRetryAux op config rand attempt remaining).result
          = .error (es (attempt + remaining)) := by
  intro remaining
  induction remaining with
  | zero =>
    intro a
    unfold withRetryAux
    rw [hop a]
    simp [hret a]
  | succ m ih =>
    intro a
    have h := ih (a + 1)
    have hsum : a + 1 + m = a + (m + 1) := by omega
    unfold withRetryAux
    rw [hop a]
    simp only [hret a, if_true]
    rw [hsum] at h
    exact ⟨by simp [h.1], by simp [h.2]⟩

/-- Claim C4: an operation that fails on every invocation with a
retryable error, run under a configuration with maximum retry count m,
is invoked exactly m + 1 times, and the caller receives the error of the
last (most recent) invocation itself, unwrapped. -/
theorem withRetry_exhausts {α : Type} (op : Nat → Except SdkError α)
    (config : RetryConfig) (rand : Nat → ℚ) (es : Nat → SdkError)
    (hop : ∀ n, op n = .error (es n)) (hret : ∀ n, isRetryableError (es n) = true) :
    (withRetry op config rand).invocations = config.maxRetries + 1
    ∧ (withRetry op config rand).result = .error (es config.maxRetries) := by
  have h := withRetryAux_allFail op config rand es hop hret config.maxRetries 0
  simpa [withRetry] using h

/-- Witness for claim C4: an operation that always fails with a server
error under max retries 2 is invoked three times and the server error
itself comes back. -/
theorem withRetry_exhausts_witness :
    (withRetry (fun _ => (Except.error (ServerError "Internal server error" 500) :
        Except SdkError Nat)) ⟨2, 1000, 30000, 2, 0⟩ (fun _ => 0)).invocations = 3
    ∧ (withRetry (fun _ => (Except.error (ServerError "Internal server error" 500) :
        Except SdkError Nat)) ⟨2, 1000, 30000, 2, 0⟩ (fun _ => 0)).result
      = .error (ServerError "Internal server error" 500) :=
  withRetry_exhausts
    (fun _ => (Except.error (ServerError "Internal server error" 500) : Except SdkError Nat))
    ⟨2, 1000, 30000, 2, 0⟩ (fun _ => 0) (fun _ => ServerError "Internal server error" 500)
    (fun _ => rfl) (fun _ => rfl)

/-- Claim C5: `isRetryableError` is true exactly for the kinds
rate_limited, server, network and timeout (hence false for validation,
authentication, not_found, quota_exceeded and unknown), and an operation
whose first failure is non-retryable is invoked exactly once with no
wait ever scheduled, whatever the configured maximum retries. -/
theorem isRetryableError_spec (e : SdkError) :
    (isRetryableError e = true ↔
      (e.kind = .rateLimited ∨ e.kind = .server ∨ e.kind = .network ∨ e.kind = .timeout))
    ∧ (isRetryableError e = false ↔
      (e.kind = .validation ∨ e.kind = .authentication ∨ e.kind = .notFound
        ∨ e.kind = .quotaExceeded ∨ e.kind = .unknown))
    ∧ (∀ (α : Type) (op : Nat → Except SdkError α) (config : RetryConfig)
        (rand : Nat → ℚ),
       op 0 = .error e → isRetryableError e = false →
       (withRetry op config rand).waits = []
       ∧ (withRetry op config rand).invocations = 1
       ∧ (withRetry op config rand).result = .error e) := by
  refine ⟨?_, ?_, ?_⟩
  · rcases e with ⟨k, msg, sc, ec, ve, ra⟩
    cases k <;> simp [isRetryableError]
  · rcases e with ⟨k, msg, sc, ec, ve, ra⟩
    cases k <;> simp [isRetryableError]
  · intro α op config rand hop hret
    unfold withRetry withRetryAux
    rw [hop]
    simp [hret]

/-- Witness for claim C5: a validation failure on the first invocation
under max retries 3 gives one invocation, no waits, and the validation
error back. -/
theorem isRetryableError_spec_witness :
    (withRetry (fun _ => (Except.error (ValidationError "Invalid input" none) :
        Except SdkError Nat)) ⟨3, 1000, 30000, 2, 0⟩ (fun _ => 0)).waits = []
    ∧ (withRetry (fun _ => (Except.error (ValidationError "Invalid input" none) :
        Except SdkError Nat)) ⟨3, 1000, 30000, 2, 0⟩ (fun _ => 0)).invocations = 1
    ∧ (withRetry (fun _ => (Except.error (ValidationError "Invalid input" none) :
        Except SdkError Nat)) ⟨3, 1000, 30000, 2, 0⟩ (fun _ => 0)).result
      = .error (ValidationError "Invalid input" none) :=
  (isRetryableError_spec (ValidationError "Invalid input" none)).2.2 Nat
    (fun _ => (Except.error (ValidationError "Invalid input" none) : Except SdkError Nat))
    ⟨3, 1000, 30000, 2, 0⟩ (fun _ => 0) rfl rfl

/-- Claim C6: a failure reaching the request executor's catch handler is
classified as the timeout kind exactly when it originates from the
timeout-driven cancellation (the abort signal, surfacing as an
`AbortError`), and as the network kind in every other case (DNS,
connection refusal, TLS failure); the two classifications are mutually
exclusive and neither carries a status code. -/
theorem classifyTransportError_spec (t : Nat) (e : JsError) :
    ((classifyTransportError t e).kind = .timeout ↔ e.name = "AbortError")
    ∧ ((classifyTransportError t e).kind = .network ↔ e.name ≠ "AbortError")
    ∧ (classifyTransportError t e).statusCode = none := by
  unfold classifyTransportError
  by_cases h : e.name = "AbortError"
  · simp [h, TimeoutError]
  · by_cases h2 : stringIncludes e.message "fetch" = true <;>
      simp [h, h2, NetworkError, TimeoutError]

/-- Witness for claim C6: an aborted attempt is classified as timeout,
a fetch failure as network, and both without a status code. -/
theorem classifyTransportError_spec_witness :
    (classifyTransportError 60000 ⟨"AbortError", "The operation was aborted"⟩).kind
      = ErrorKind.timeout
    ∧ (classifyTransportError 60000 ⟨"TypeError", "fetch failed"⟩).kind
      = ErrorKind.network
    ∧ (classifyTransportError 60000 ⟨"AbortError", "The operation was aborted"⟩).statusCode
      = none :=
  ⟨(classifyTransportError_spec 60000 ⟨"AbortError", "The operation was aborted"⟩).1.mpr rfl,
   (classifyTransportError_spec 60000 ⟨"TypeError", "fetch failed"⟩).2.1.mpr (by decide),
   (classifyTransportError_spec 60000 ⟨"AbortError", "The operation was aborted"⟩).2.2⟩

/-- Claim C7, counterexample. The claim reads "a content-type header is
set exactly for those requests whose body is present (no content-type
header on body-less requests)": a body-less request still carries
`Content-Type: application/json`, because the client sets the header
unconditionally. -/
theorem buildRequestHeaders_counterexample :
    (buildRequestHeaders "test-key" false none).contentType = some "application/json"
    ∧ (buildRequestHeaders "test-key" false none).contentType ≠ none := by
  refine ⟨rfl, ?_⟩
  decide

/-- Claim C7 (amended): for every request dispatched by the executor,
the headers carry the credential in the fixed `X-API-Key` header and an
accept header selected by response mode (`image/*,application/pdf` in
binary mode, `application/json` otherwise), and the content-type header
is set to `application/json` on every request, whether or not a body is
present. -/
theorem buildRequestHeaders_spec (key : String) (bin : Bool) (body : Option String) :
    (buildRequestHeaders key bin body).xApiKey = key
    ∧ (buildRequestHeaders key bin body).accept
        = (if bin then "image/*,application/pdf" else "application/json")
    ∧ (buildRequestHeaders key bin body).contentType = some "application/json" :=
  ⟨rfl, rfl, rfl⟩

/-- Claim C8, counterexample. A base address supplied directly through
the constructor's config object is stored as given: with
`baseUrl: "https://example.com/"` the stored address keeps its trailing
slash, which stripping would have removed. -/
theorem constructorBaseUrl_counterexample :
    constructorBaseUrl ⟨some "k", some "https://example.com/", none, none⟩
      = "https://example.com/"
    ∧ stripTrailingSlashes "https://example.com/" = "https://example.com"
    ∧ constructorBaseUrl ⟨some "k", some "https://example.com/", none, none⟩
      ≠ stripTrailingSlashes "https://example.com/" := by
  refine ⟨rfl, rfl, ?_⟩
  decide

/-- Claim C8 (amended): trailing path separators are stripped from a
base address supplied through the builder's `withBaseUrl`, while a
non-empty base address supplied directly through the client
constructor's config object is stored exactly as given, unstripped. -/
theorem baseUrl_stripping (cfg : AllscreenshotsConfig) (url : String) (s : String)
    (hs : s ≠ "") :
    (builderWithBaseUrl cfg url).baseUrl = some (stripTrailingSlashes url)
    ∧ constructorBaseUrl { cfg with baseUrl := some s } = s := by
  refine ⟨rfl, ?_⟩
  simp [constructorBaseUrl, jsOr, hs]

/-- Witness for claim C8's amended theorem: the builder strips
`https://custom.api.com///` down to `https://custom.api.com`, while
the constructor keeps `https://example.com/` verbatim. -/
theorem baseUrl_stripping_witness :
    (builderWithBaseUrl ⟨none, none, none, none⟩ "https://custom.api.com///").baseUrl
      = some (stripTrailingSlashes "https://custom.api.com///")
    ∧ constructorBaseUrl ⟨none, some "https://example.com/", none, none⟩
      = "https://example.com/" :=
  baseUrl_stripping ⟨none, none, none, none⟩ "https://custom.api.com///"
    "https://example.com/" (by decide)

/-- Claim C9, counterexample. Constructing a client with no credential
anywhere throws an `AuthenticationError` — but that error is not
distinct from the request-time failure taxonomy: it has the very same
kind (and machine error code) that the classifier produces for an HTTP
401 response. -/
theorem mkClient_error_counterexample :
    mkClient ⟨none, none, none, none⟩ none
      = .error (AuthenticationError missingApiKeyMessage)
    ∧ (AuthenticationError missingApiKeyMessage).kind
      = (parseApiError 401 Body.null none).kind
    ∧ (AuthenticationError missingApiKeyMessage).errorCode
      = (parseApiError 401 Body.null none).errorCode := ⟨rfl, rfl, rfl⟩

/-- Claim C9 (amended): constructing a client when no credential is
supplied in configuration and none is discovered from the environment
fails synchronously at construction time — the constructor returns the
missing-key `AuthenticationError` and never yields a client, so no
request-time failure can occur — but the error it fails with is of the
authentication kind, the same kind the request-time taxonomy uses for
401/403 responses, not a kind distinct from it. -/
theorem mkClient_missing_key (cfg : AllscreenshotsConfig) (env : Option String)
    (h : resolveApiKey cfg.apiKey env = "") :
    mkClient cfg env = .error (AuthenticationError missingApiKeyMessage)
    ∧ (∀ c : AllscreenshotsClient, mkClient cfg env ≠ .ok c)
    ∧ (AuthenticationError missingApiKeyMessage).kind = ErrorKind.authentication := by
  refine ⟨?_, ?_, rfl⟩
  · simp [mkClient, h]
  · intro c
    simp [mkClient, h]

/-- Witness for claim C9's amended theorem: no configured key and no
environment key. -/
theorem mkClient_missing_key_witness :
    mkClient ⟨none, none, none, none⟩ none
      = .error (AuthenticationError missingApiKeyMessage)
    ∧ (∀ c : AllscreenshotsClient, mkClient ⟨none, none, none, none⟩ none ≠ .ok c)
    ∧ (AuthenticationError missingApiKeyMessage).kind = ErrorKind.authentication :=
  mkClient_missing_key ⟨none, none, none, none⟩ none rfl

/-- Claim C10: an explicitly configured empty-string API key is treated
as absent — the constructor falls back to the environment key, behaving
exactly as if no key had been configured; when the environment key is
also empty or unset, construction fails with the missing-key error; and
a non-empty configured key always wins, whatever the environment
holds. -/
theorem mkClient_empty_key_fallback (cfg : AllscreenshotsConfig) (env : Option String)
    (k : String) :
    (cfg.apiKey = some "" → mkClient cfg env = mkClient { cfg with apiKey := none } env)
    ∧ (cfg.apiKey = some "" → (env = some "" ∨ env = none) →
        mkClient cfg env = .error (AuthenticationError missingApiKeyMessage))
    ∧ (cfg.apiKey = some k → k ≠ "" →
        mkClient cfg env
          = .ok { apiKey := k
                  baseUrl := constructorBaseUrl cfg
                  timeout := cfg.timeout.getD defaultTimeout
                  autoRetry := cfg.autoRetry.getD defaultAutoRetry }) := by
  refine ⟨?_, ?_, ?_⟩
  · intro h
    simp [mkClient, resolveApiKey, jsOr, h, constructorBaseUrl]
  · intro h henv
    rcases henv with henv | henv <;>
      simp [mkClient, resolveApiKey, jsOr, h, henv]
  · intro h hk
    simp [mkClient, resolveApiKey, jsOr, h, hk]

/-- Witness for claim C10: an empty configured key falls back to the
environment key; with both empty, construction fails; and the non-empty
configured key `config-key` wins over the environment key `env-key`. -/
theorem mkClient_empty_key_fallback_witness :
    mkClient ⟨some "", some "https://x.example", none, none⟩ (some "env-key")
      = mkClient ⟨none, some "https://x.example", none, none⟩ (some "env-key")
    ∧ mkClient ⟨some "", none, none, none⟩ (some "")
      = .error (AuthenticationError missingApiKeyMessage)
    ∧ mkClient ⟨some "config-key", none, none, none⟩ (some "env-key")
      = .ok { apiKey := "config-key"
              baseUrl := constructorBaseUrl ⟨some "config-key", none, none, none⟩
              timeout := Option.getD none defaultTimeout
              autoRetry := Option.getD none defaultAutoRetry } :=
  ⟨(mkClient_empty_key_fallback ⟨some "", some "https://x.example", none, none⟩
      (some "env-key") "").1 rfl,
   (mkClient_empty_key_fallback ⟨some "", none, none, none⟩ (some "") "").2.1 rfl
     (Or.inl rfl),
   (mkClient_empty_key_fallback ⟨some "config-key", none, none, none⟩ (some "env-key")
      "config-key").2.2 rfl (by decide)⟩

end Allscreenshots
